import Mathlib

/-!
Shallow embedding of the XDP binding/lifecycle subsystem (`src/xdp/bind.c`)
of the xdp-for-windows repository, together with theorems checking the
natural-language specification against it.

Machine integers (`UINT32`) are modelled as `Nat` with explicit `2 ^ 32`
overflow checks where the source performs checked arithmetic
(`RtlUInt32Mult` / `RtlUInt32Add`).  Kernel statuses (`NTSTATUS`) are a small
inductive covering the codes this module produces plus an opaque
provider-supplied code.  Environment outcomes the code merely observes
(allocation success, provider callback results) are explicit parameters.
-/

namespace XdpBind

/-- Kernel status codes produced or propagated by `bind.c`, plus an opaque
provider-returned failure code (`PROVIDER_ERROR`). -/
inductive NTSTATUS where
  | STATUS_SUCCESS
  | STATUS_NOT_SUPPORTED
  | STATUS_NO_MEMORY
  | STATUS_DUPLICATE_OBJECTID
  | STATUS_DELETE_PENDING
  | PROVIDER_ERROR (code : Nat)
deriving DecidableEq, Repr

/-- Source `NT_SUCCESS` macro: only `STATUS_SUCCESS` counts as success among the
codes this module handles. -/
def NT_SUCCESS : NTSTATUS → Bool
  | .STATUS_SUCCESS => true
  | _ => false

/-- Source `XDP_VERSION`: a `{Major, Minor, Patch}` triple of `UINT32`. -/
structure XDP_VERSION where
  Major : Nat
  Minor : Nat
  Patch : Nat
deriving DecidableEq, Repr

/-- Source `sizeof(XDP_VERSION)`: three 4-byte fields. -/
def sizeofXdpVersion : Nat := 12

/-- Source `XDP_OBJECT_HEADER`: versioned-structure header with revision and size. -/
structure XDP_OBJECT_HEADER where
  Revision : Nat
  Size : Nat
deriving DecidableEq, Repr

/-- Source `XDP_CAPABILITIES_EX_REVISION_1` (header constant, declared outside
`src/`; only its role as a lower bound matters). -/
def XDP_CAPABILITIES_EX_REVISION_1 : Nat := 1

/-- Source `XDP_SIZEOF_CAPABILITIES_EX_REVISION_1` (header constant, declared
outside `src/`; only its role as a lower bound matters). -/
def XDP_SIZEOF_CAPABILITIES_EX_REVISION_1 : Nat := 32

/-- Source `XDP_CAPABILITIES_EX`: the provider capability blob.  The fields read by
`bind.c` are `Header`, `DriverApiVersionsOffset` / `DriverApiVersionCount`
(and `InstanceId`, irrelevant here).  The spec's blob layout additionally
names `hookIdArrayOffset` / `hookCount` fields; they are carried here so that
claims about them can be stated, and — like the source — no function below
reads them during validation.  `DriverApiVersions` is the version array the
offset points at. -/
structure XDP_CAPABILITIES_EX where
  Header : XDP_OBJECT_HEADER
  InstanceId : Nat
  hookIdArrayOffset : Nat
  hookCount : Nat
  DriverApiVersionsOffset : Nat
  DriverApiVersionCount : Nat
  DriverApiVersions : List XDP_VERSION
deriving DecidableEq, Repr

/-- Source `RtlUInt32Mult`: 32-bit checked multiply; `none` models
`STATUS_INTEGER_OVERFLOW`. -/
def RtlUInt32Mult (a b : Nat) : Option Nat :=
  if a * b < 2 ^ 32 then some (a * b) else none

/-- Source `RtlUInt32Add`: 32-bit checked add; `none` models
`STATUS_INTEGER_OVERFLOW`. -/
def RtlUInt32Add (a b : Nat) : Option Nat :=
  if a + b < 2 ^ 32 then some (a + b) else none

/-- Source `XdpValidateCapabilitiesEx` (bind.c): rejects a blob whose header
revision or size is below the revision-1 minimum, whose
`DriverApiVersionsOffset + DriverApiVersionCount * sizeof(XDP_VERSION)`
computation overflows 32 bits, or whose computed end exceeds `TotalSize`. -/
def XdpValidateCapabilitiesEx (CapabilitiesEx : XDP_CAPABILITIES_EX)
    (TotalSize : Nat) : Bool :=
  if CapabilitiesEx.Header.Revision < XDP_CAPABILITIES_EX_REVISION_1 ∨
      CapabilitiesEx.Header.Size < XDP_SIZEOF_CAPABILITIES_EX_REVISION_1 then
    false
  else
    match RtlUInt32Mult CapabilitiesEx.DriverApiVersionCount sizeofXdpVersion with
    | none => false
    | some Size =>
      match RtlUInt32Add CapabilitiesEx.DriverApiVersionsOffset Size with
      | none => false
      | some Size => decide (TotalSize ≥ Size)

/-- Source `XdpVersionIsSupported` (bind.c): the current version supports a
candidate minimum iff the majors are equal and minor and patch are each at
least the candidate's. -/
def XdpVersionIsSupported (Version MinimumSupportedVersion : XDP_VERSION) : Bool :=
  Version.Major == MinimumSupportedVersion.Major &&
  Version.Minor ≥ MinimumSupportedVersion.Minor &&
  Version.Patch ≥ MinimumSupportedVersion.Patch

/-- Outcome of a provider `GetInterfaceDispatch` request for one candidate
version: `some (context, dispatch)` on success, `none` on failure.  The
provider is modelled as a pure oracle from the candidate version. -/
def GetDispatchOracle : Type := XDP_VERSION → Option (Nat × Nat)

/-- Source `XdpRequestClientDispatch` loop (bind.c): iterate the provider-advertised
versions in order; for each supported candidate, request the dispatch table;
on the first successful request stop with that candidate; a failed request
resets the status to `STATUS_NOT_SUPPORTED` and iteration continues; if the
list is exhausted the result is `STATUS_NOT_SUPPORTED`. -/
def XdpRequestClientDispatch (CurrentVersion : XDP_VERSION)
    (GetInterfaceDispatch : GetDispatchOracle) :
    List XDP_VERSION → Except NTSTATUS (XDP_VERSION × Nat × Nat)
  | [] => .error .STATUS_NOT_SUPPORTED
  | ClientVersion :: rest =>
    if XdpVersionIsSupported CurrentVersion ClientVersion then
      match GetInterfaceDispatch ClientVersion with
      | some (ctx, disp) => .ok (ClientVersion, ctx, disp)
      | none => XdpRequestClientDispatch CurrentVersion GetInterfaceDispatch rest
    else
      XdpRequestClientDispatch CurrentVersion GetInterfaceDispatch rest

/-- Acceptability of a candidate version per the spec's P5: version check
passes and the provider's dispatch request succeeds. -/
def candidateAccepted (CurrentVersion : XDP_VERSION)
    (GetInterfaceDispatch : GetDispatchOracle) (v : XDP_VERSION) : Bool :=
  XdpVersionIsSupported CurrentVersion v && (GetInterfaceDispatch v).isSome

/-- Source `XdpDriverApiCurrentVersion`: the module's fixed current driver API
version (the `XDP_DRIVER_API_*_VER` macros are defined outside `src/`; the
concrete value is irrelevant to every claim, which either quantifies over
the current version or does not depend on it). -/
def XdpDriverApiCurrentVersion : XDP_VERSION := ⟨1, 0, 0⟩

/-- Source `XDP_INTERFACE_MODE`: generic (0) before native (1), matching the
iteration order of `XdpIfpFindInterface`. -/
inductive XDP_INTERFACE_MODE where
  | GENERIC
  | NATIVE
deriving DecidableEq, Repr

/-- Source `XDP_HOOK_ID`: `{Layer, Direction, SubLayer}` triple. -/
structure XDP_HOOK_ID where
  Layer : Nat
  Direction : Nat
  SubLayer : Nat
deriving DecidableEq, Repr

/-- Source `XDP_CAPABILITIES_INTERNAL`: mode, hook array (`Hooks` with implicit
`HookCount = Hooks.length`), the capability blob, and its declared byte
size as passed to validation. -/
structure XDP_CAPABILITIES_INTERNAL where
  Mode : XDP_INTERFACE_MODE
  Hooks : List XDP_HOOK_ID
  CapabilitiesEx : XDP_CAPABILITIES_EX
  CapabilitiesSize : Nat
deriving DecidableEq, Repr

/-- Source `XDP_BINDING_CLIENT_ENTRY`: one attached consumer, identified by its
client's component id and opaque key; `Linked` models whether the entry's
`LIST_ENTRY Link` is currently threaded into a binding's client list
(`IsListEmpty(&Link)` is `!Linked`). -/
structure XDP_BINDING_CLIENT_ENTRY where
  ClientId : Nat
  Key : Nat
  Linked : Bool
deriving DecidableEq, Repr

/-- Source `XDP_INTERFACE_NMR`: the provider-attachment (NMR) context.
`NmrHandle = none` models the null handle; `Freed` records that
`ExFreePoolWithTag` ran. -/
structure XDP_INTERFACE_NMR where
  NmrHandle : Option Nat
  ReferenceCount : Nat
  Freed : Bool
deriving DecidableEq, Repr

/-- Source `XDP_INTERFACE`: per-(interface, mode) binding object.  Pointer fields
are `Option Nat` (opaque non-null values); `ReferenceCount` is the `LONG`
existence count; `ProviderReference` the `ULONG` provider-usage count. -/
structure XDP_INTERFACE where
  IfIndex : Nat
  XdpIfInterfaceContext : Option Nat
  Capabilities : XDP_CAPABILITIES_INTERNAL
  Nmr : Option XDP_INTERFACE_NMR
  DriverApiVersion : XDP_VERSION
  InterfaceDispatch : Option Nat
  InterfaceContext : Option Nat
  ReferenceCount : Int
  Clients : List XDP_BINDING_CLIENT_ENTRY
  ProviderReference : Nat
  BindingDeleting : Bool
  NmrDeleting : Bool
deriving DecidableEq, Repr

/-- The `Rundown` union member: the bitfield byte read as a whole is nonzero
iff either `BindingDeleting` or `NmrDeleting` is set. -/
def XDP_INTERFACE.Rundown (Interface : XDP_INTERFACE) : Bool :=
  Interface.BindingDeleting || Interface.NmrDeleting

/-- Source `XdpIfpReferenceInterface`: `InterlockedIncrement(&ReferenceCount)`. -/
def XdpIfpReferenceInterface (Interface : XDP_INTERFACE) : XDP_INTERFACE :=
  { Interface with ReferenceCount := Interface.ReferenceCount + 1 }

/-- Source `XdpIfpDereferenceInterface`: `InterlockedDecrement(&ReferenceCount)`;
at zero the work queue is shut down and the object freed (the value is
simply dropped by callers in this embedding). -/
def XdpIfpDereferenceInterface (Interface : XDP_INTERFACE) : XDP_INTERFACE :=
  { Interface with ReferenceCount := Interface.ReferenceCount - 1 }

/-- Source `XdpIfpDereferenceNmr`: pre-decrement of the NMR private count; frees
the context when it reaches zero. -/
def XdpIfpDereferenceNmr (Nmr : XDP_INTERFACE_NMR) : XDP_INTERFACE_NMR :=
  if Nmr.ReferenceCount - 1 = 0 then
    { Nmr with ReferenceCount := 0, Freed := true }
  else
    { Nmr with ReferenceCount := Nmr.ReferenceCount - 1 }

/-- The NMR context as initialized by `XdpIfpOpenInterface` once
`XdpOpenProvider` has produced a (non-null) handle: private reference count
exactly 2. -/
def nmrOpened (handle : Nat) : XDP_INTERFACE_NMR :=
  { NmrHandle := some handle, ReferenceCount := 2, Freed := false }

/-- Source `XdpIfpCloseNmrInterface`, viewed on the NMR context: closes the
provider handle (after waiting for the detach notification), nulls
`NmrHandle`, and releases the consumer-close-path reference. -/
def XdpIfpCloseNmrInterface (Nmr : XDP_INTERFACE_NMR) : XDP_INTERFACE_NMR :=
  XdpIfpDereferenceNmr { Nmr with NmrHandle := none }

/-- Source `XdpIfpInterfaceNmrDelete`, viewed on the NMR context: the work item
scheduled from the provider's detach callback; after (possibly) starting
rundown it releases the detach-path reference. -/
def XdpIfpInterfaceNmrDeleteNmr (Nmr : XDP_INTERFACE_NMR) : XDP_INTERFACE_NMR :=
  XdpIfpDereferenceNmr Nmr

/-- Source `XdpIfpCloseInterface`, viewed on the binding's fields: closes the open
provider context and dispatch, drops and closes the NMR attachment
(clearing `NmrDeleting`), and completes deregistration when
`BindingDeleting`. -/
def XdpIfpCloseInterface (Interface : XDP_INTERFACE) : XDP_INTERFACE :=
  let i1 :=
    if Interface.InterfaceContext.isSome then
      { Interface with InterfaceContext := none, InterfaceDispatch := none }
    else Interface
  let i2 :=
    match i1.Nmr with
    | some Nmr => { i1 with Nmr := some (XdpIfpCloseNmrInterface Nmr), NmrDeleting := false }
    | none => i1
  let i3 := match i2.Nmr with | some _ => { i2 with Nmr := none } | none => i2
  if i3.BindingDeleting ∧ i3.XdpIfInterfaceContext.isSome then
    { i3 with XdpIfInterfaceContext := none }
  else i3

/-- Source `XdpIfSupportsHookId`: the capability hook array contains a hook with
the target's layer, direction, and sublayer. -/
def XdpIfSupportsHookId (Capabilities : XDP_CAPABILITIES_INTERNAL)
    (Target : XDP_HOOK_ID) : Bool :=
  Capabilities.Hooks.any fun Candidate =>
    Target.Layer == Candidate.Layer &&
    Target.Direction == Candidate.Direction &&
    Target.SubLayer == Candidate.SubLayer

/-- Source `XdpIfpSupportsHookIds`: every target hook id is supported. -/
def XdpIfpSupportsHookIds (Capabilities : XDP_CAPABILITIES_INTERNAL)
    (TargetIds : List XDP_HOOK_ID) : Bool :=
  TargetIds.all fun Target => XdpIfSupportsHookId Capabilities Target

/-- Source `XDP_INTERFACE_SET`: one binding slot per mode. -/
structure XDP_INTERFACE_SET where
  IfIndex : Nat
  Generic : Option XDP_INTERFACE
  Native : Option XDP_INTERFACE
deriving DecidableEq, Repr

/-- Source `IfSet->Interfaces[Mode]`. -/
def XDP_INTERFACE_SET.slot (IfSet : XDP_INTERFACE_SET) :
    XDP_INTERFACE_MODE → Option XDP_INTERFACE
  | .GENERIC => IfSet.Generic
  | .NATIVE => IfSet.Native

/-- Source `IfSet->Interfaces[Mode] = v`. -/
def XDP_INTERFACE_SET.setSlot (IfSet : XDP_INTERFACE_SET)
    (Mode : XDP_INTERFACE_MODE) (v : Option XDP_INTERFACE) : XDP_INTERFACE_SET :=
  match Mode with
  | .GENERIC => { IfSet with Generic := v }
  | .NATIVE => { IfSet with Native := v }

/-- Source `XdpIfpFindIfSet`: linear scan of the global interface-set list for the
first set with the requested `IfIndex`. -/
def XdpIfpFindIfSet (XdpInterfaceSets : List XDP_INTERFACE_SET)
    (IfIndex : Nat) : Option XDP_INTERFACE_SET :=
  XdpInterfaceSets.find? fun Candidate => Candidate.IfIndex == IfIndex

/-- One iteration of the mode-slot scan in `XdpIfpFindInterface`: keep the
previous result unless the candidate slot holds a binding that passes the
optional mode filter and supports every requested hook id, in which case the
candidate unconditionally replaces the previous result. -/
def findInterfaceStep (HookIds : List XDP_HOOK_ID)
    (RequiredMode : Option XDP_INTERFACE_MODE)
    (Interface : Option XDP_INTERFACE) (Mode : XDP_INTERFACE_MODE)
    (CandidateIf : Option XDP_INTERFACE) : Option XDP_INTERFACE :=
  match CandidateIf with
  | none => Interface
  | some c =>
    if RequiredMode.isSome ∧ RequiredMode ≠ some Mode then Interface
    else if ¬ XdpIfpSupportsHookIds c.Capabilities HookIds then Interface
    else some c

/-- Source `XdpIfpFindInterface`: locate the interface set, then scan the mode
slots from `GENERIC` up to `NATIVE`, the last qualifying candidate winning. -/
def XdpIfpFindInterface (XdpInterfaceSets : List XDP_INTERFACE_SET)
    (IfIndex : Nat) (HookIds : List XDP_HOOK_ID)
    (RequiredMode : Option XDP_INTERFACE_MODE) : Option XDP_INTERFACE :=
  match XdpIfpFindIfSet XdpInterfaceSets IfIndex with
  | none => none
  | some IfSet =>
    findInterfaceStep HookIds RequiredMode
      (findInterfaceStep HookIds RequiredMode none .GENERIC (IfSet.slot .GENERIC))
      .NATIVE (IfSet.slot .NATIVE)

/-- Source `XdpIfFindAndReferenceBinding`: under the shared lock, find a matching
binding and, if found, take one existence reference before returning it. -/
def XdpIfFindAndReferenceBinding (XdpInterfaceSets : List XDP_INTERFACE_SET)
    (IfIndex : Nat) (HookIds : List XDP_HOOK_ID)
    (RequiredMode : Option XDP_INTERFACE_MODE) : Option XDP_INTERFACE :=
  match XdpIfpFindInterface XdpInterfaceSets IfIndex HookIds RequiredMode with
  | none => none
  | some Interface => some (XdpIfpReferenceInterface Interface)

/-- Source `XDP_ADD_INTERFACE` descriptor, extended with the two environment
outcomes `XdpIfAddInterfaces` observes for it: whether the nonpaged
allocation of the `XDP_INTERFACE` succeeds and whether
`XdpCreateWorkQueue` succeeds.  The paired `Option XDP_INTERFACE` in the
batch list below is the caller's `_Inout_` `*InterfaceHandle` cell. -/
structure XDP_ADD_INTERFACE where
  InterfaceCapabilities : XDP_CAPABILITIES_INTERNAL
  InterfaceContext : Option Nat
  allocSucceeds : Bool
  workQueueSucceeds : Bool
deriving DecidableEq, Repr

/-- The `XDP_INTERFACE` object as initialized by the `XdpIfAddInterfaces`
loop body for one descriptor. -/
def mkInterface (IfIndex : Nat) (AddIf : XDP_ADD_INTERFACE) : XDP_INTERFACE :=
  { IfIndex := IfIndex
    XdpIfInterfaceContext := AddIf.InterfaceContext
    Capabilities := AddIf.InterfaceCapabilities
    Nmr := none
    DriverApiVersion := ⟨0, 0, 0⟩
    InterfaceDispatch := none
    InterfaceContext := none
    ReferenceCount := 1
    Clients := []
    ProviderReference := 0
    BindingDeleting := false
    NmrDeleting := false }

/-- The forward loop of `XdpIfAddInterfaces`: for each descriptor in order,
validate the capability blob (`STATUS_NOT_SUPPORTED` on failure), allocate
the binding (`STATUS_NO_MEMORY` on failure), create its work queue
(`STATUS_NO_MEMORY` on failure, freeing the binding), then insert it into
its mode slot and write the caller's handle.  The first failure stops the
loop; handle cells not yet reached keep their caller-provided values. -/
def XdpIfpAddInterfacesLoop (IfSet : XDP_INTERFACE_SET) :
    List (XDP_ADD_INTERFACE × Option XDP_INTERFACE) →
    NTSTATUS × XDP_INTERFACE_SET × List (Option XDP_INTERFACE)
  | [] => (.STATUS_SUCCESS, IfSet, [])
  | (AddIf, handle) :: rest =>
    if ¬ XdpValidateCapabilitiesEx AddIf.InterfaceCapabilities.CapabilitiesEx
        AddIf.InterfaceCapabilities.CapabilitiesSize then
      (.STATUS_NOT_SUPPORTED, IfSet, handle :: rest.map Prod.snd)
    else if ¬ AddIf.allocSucceeds then
      (.STATUS_NO_MEMORY, IfSet, handle :: rest.map Prod.snd)
    else if ¬ AddIf.workQueueSucceeds then
      (.STATUS_NO_MEMORY, IfSet, handle :: rest.map Prod.snd)
    else
      let Interface := mkInterface IfSet.IfIndex AddIf
      let IfSet' := IfSet.setSlot AddIf.InterfaceCapabilities.Mode (some Interface)
      let r := XdpIfpAddInterfacesLoop IfSet' rest
      (r.1, r.2.1, some Interface :: r.2.2)

/-- The unwind loop at `Exit` in `XdpIfAddInterfaces`: for every handle cell
holding a binding, clear that binding's mode slot, null the handle, and
dereference the binding.  Returns the updated set, the updated handle cells,
and the list of bindings dereferenced (each released from its batch
reference, i.e. freed). -/
def XdpIfpAddInterfacesUnwind (IfSet : XDP_INTERFACE_SET) :
    List (Option XDP_INTERFACE) →
    XDP_INTERFACE_SET × List (Option XDP_INTERFACE) × List XDP_INTERFACE
  | [] => (IfSet, [], [])
  | none :: rest =>
    let r := XdpIfpAddInterfacesUnwind IfSet rest
    (r.1, none :: r.2.1, r.2.2)
  | some Interface :: rest =>
    let IfSet' := IfSet.setSlot Interface.Capabilities.Mode none
    let r := XdpIfpAddInterfacesUnwind IfSet' rest
    (r.1, none :: r.2.1, Interface :: r.2.2)

/-- Source `XdpIfAddInterfaces`: run the forward loop; on failure run the unwind
loop over all handle cells.  Result: final status, final interface set,
final handle cells, and the bindings dereferenced during unwind. -/
def XdpIfAddInterfaces (IfSet : XDP_INTERFACE_SET)
    (Interfaces : List (XDP_ADD_INTERFACE × Option XDP_INTERFACE)) :
    NTSTATUS × XDP_INTERFACE_SET × List (Option XDP_INTERFACE) × List XDP_INTERFACE :=
  let r := XdpIfpAddInterfacesLoop IfSet Interfaces
  if NT_SUCCESS r.1 then
    (r.1, r.2.1, r.2.2, [])
  else
    let u := XdpIfpAddInterfacesUnwind r.2.1 r.2.2
    (r.1, u.1, u.2.1, u.2.2)

/-- The first per-descriptor error of a batch, in processing order
(`STATUS_SUCCESS` when every descriptor passes). -/
def firstAddError : List XDP_ADD_INTERFACE → NTSTATUS
  | [] => .STATUS_SUCCESS
  | AddIf :: rest =>
    if ¬ XdpValidateCapabilitiesEx AddIf.InterfaceCapabilities.CapabilitiesEx
        AddIf.InterfaceCapabilities.CapabilitiesSize then
      .STATUS_NOT_SUPPORTED
    else if ¬ AddIf.allocSucceeds then .STATUS_NO_MEMORY
    else if ¬ AddIf.workQueueSucceeds then .STATUS_NO_MEMORY
    else firstAddError rest

/-- The client-list walk of `XdpIfpStartRundown`: while the list is
nonempty, unlink the head entry, invoke its client's `BindingDetached`
notification, and release that entry's existence reference.  Returns the
remaining existence count and the notification order. -/
def XdpIfpRundownClients (ReferenceCount : Int) :
    List XDP_BINDING_CLIENT_ENTRY → Int × List XDP_BINDING_CLIENT_ENTRY
  | [] => (ReferenceCount, [])
  | ClientEntry :: rest =>
    let r := XdpIfpRundownClients (ReferenceCount - 1) rest
    (r.1, { ClientEntry with Linked := false } :: r.2)

/-- Source `XdpIfpStartRundown`: close the provider attachment immediately iff the
provider-usage count is zero on entry, then detach every linked client.
The second component records whether the immediate close happened; the third
lists the detach notifications, in order. -/
def XdpIfpStartRundown (Interface : XDP_INTERFACE) :
    XDP_INTERFACE × Bool × List XDP_BINDING_CLIENT_ENTRY :=
  let closedNow := Interface.ProviderReference = 0
  let i1 := if closedNow then XdpIfpCloseInterface Interface else Interface
  let r := XdpIfpRundownClients i1.ReferenceCount i1.Clients
  ({ i1 with Clients := [], ReferenceCount := r.1 }, closedNow, r.2)

/-- Source `XdpIfRegisterClient`: refuse when the binding is marked for
registry-side deletion; refuse a duplicate (component-id, key) pair;
otherwise take one existence reference and link the entry at the tail. -/
def XdpIfRegisterClient (Interface : XDP_INTERFACE) (ClientId Key : Nat) :
    NTSTATUS × XDP_INTERFACE :=
  if Interface.BindingDeleting then
    (.STATUS_DELETE_PENDING, Interface)
  else if Interface.Clients.any
      (fun Candidate => Candidate.ClientId == ClientId && Candidate.Key == Key) then
    (.STATUS_DUPLICATE_OBJECTID, Interface)
  else
    (.STATUS_SUCCESS,
      { XdpIfpReferenceInterface Interface with
        Clients := Interface.Clients ++ [⟨ClientId, Key, true⟩] })

/-- Source `XdpIfDeregisterClient`: if the entry is still linked, unlink it and
release its existence reference; otherwise do nothing. -/
def XdpIfDeregisterClient (Interface : XDP_INTERFACE)
    (ClientEntry : XDP_BINDING_CLIENT_ENTRY) :
    XDP_INTERFACE × XDP_BINDING_CLIENT_ENTRY :=
  if ClientEntry.Linked then
    (XdpIfpDereferenceInterface
        { Interface with Clients := Interface.Clients.erase ClientEntry },
      { ClientEntry with Linked := false })
  else
    (Interface, ClientEntry)

/-- Environment of one `XdpIfpOpenInterface` attempt: whether the NMR
context allocation succeeds, the outcome of `XdpOpenProvider` (a handle on
success, the failure status otherwise), the provider's per-version dispatch
oracle, and the status returned by the interface's optional `OpenInterface`
callback. -/
structure OpenInterfaceEnv where
  nmrAllocSucceeds : Bool
  openProviderResult : Except NTSTATUS Nat
  GetInterfaceDispatch : GetDispatchOracle
  openInterfaceStatus : NTSTATUS

/-- Source `XdpIfpOpenInterface`: validate the blob header, allocate the NMR
context (count 2), open the provider channel, negotiate a dispatch table via
`XdpRequestClientDispatch`, and invoke the interface's open callback; on any
failure unwind so that no provider context remains open. -/
def XdpIfpOpenInterface (Interface : XDP_INTERFACE) (env : OpenInterfaceEnv) :
    NTSTATUS × XDP_INTERFACE :=
  let CapabilitiesEx := Interface.Capabilities.CapabilitiesEx
  if CapabilitiesEx.Header.Revision < XDP_CAPABILITIES_EX_REVISION_1 ∨
      CapabilitiesEx.Header.Size < XDP_SIZEOF_CAPABILITIES_EX_REVISION_1 then
    (.STATUS_NOT_SUPPORTED, Interface)
  else if ¬ env.nmrAllocSucceeds then
    (.STATUS_NO_MEMORY, Interface)
  else
    match env.openProviderResult with
    | .error st =>
      -- NmrHandle is still null: drop the interface reference taken for the
      -- NMR work item and free the NMR context.
      (st, XdpIfpDereferenceInterface (XdpIfpReferenceInterface Interface))
    | .ok handle =>
      let i1 := { XdpIfpReferenceInterface Interface with Nmr := some (nmrOpened handle) }
      match XdpRequestClientDispatch XdpDriverApiCurrentVersion
          env.GetInterfaceDispatch CapabilitiesEx.DriverApiVersions with
      | .error st => (st, XdpIfpCloseInterface i1)
      | .ok (ClientVersion, ctx, disp) =>
        let i2 :=
          { i1 with
            DriverApiVersion := ClientVersion,
            InterfaceContext := some ctx,
            InterfaceDispatch := some disp }
        if NT_SUCCESS env.openInterfaceStatus then
          (.STATUS_SUCCESS, i2)
        else
          (env.openInterfaceStatus, XdpIfpCloseInterface i2)

/-- Source `XdpIfpReferenceProvider`: refuse when either rundown flag is set; open
the provider attachment when no provider context is open yet (propagating
its failure with the count untouched); then take one provider-usage
reference. -/
def XdpIfpReferenceProvider (Interface : XDP_INTERFACE)
    (env : OpenInterfaceEnv) : NTSTATUS × XDP_INTERFACE :=
  if Interface.Rundown then
    (.STATUS_DELETE_PENDING, Interface)
  else
    let r :=
      if Interface.InterfaceContext = none then XdpIfpOpenInterface Interface env
      else (.STATUS_SUCCESS, Interface)
    if NT_SUCCESS r.1 then
      (.STATUS_SUCCESS, { r.2 with ProviderReference := r.2.ProviderReference + 1 })
    else
      (r.1, r.2)

/-- Source `XdpIfpDereferenceProvider`: release one provider-usage reference; at
zero close the provider attachment. -/
def XdpIfpDereferenceProvider (Interface : XDP_INTERFACE) : XDP_INTERFACE :=
  let i1 := { Interface with ProviderReference := Interface.ProviderReference - 1 }
  if i1.ProviderReference = 0 then XdpIfpCloseInterface i1 else i1

/-- Source `XdpIfCreateRxQueue`: take a provider-usage reference (propagating its
failure), delegate creation to the provider (`createStatus` and
`createQueue` model the status and out parameters of the provider's
`CreateRxQueue` call), and when `NT_SUCCESS(createStatus)` fails release the
just-taken reference and propagate the provider's status unchanged.
`XdpIfCreateTxQueue` is textually identical modulo RX/TX names. -/
def XdpIfCreateRxQueue (Interface : XDP_INTERFACE) (env : OpenInterfaceEnv)
    (createStatus : NTSTATUS) (createQueue : Nat × Nat) :
    NTSTATUS × XDP_INTERFACE × Option (Nat × Nat) :=
  let r := XdpIfpReferenceProvider Interface env
  if ¬ NT_SUCCESS r.1 then
    (r.1, r.2, none)
  else if ¬ NT_SUCCESS createStatus then
    (createStatus, XdpIfpDereferenceProvider r.2, none)
  else
    (createStatus, r.2, some createQueue)

/-- Source `sizeof(XDP_HOOK_ID)`: three 4-byte enum fields, as named by the spec's
`hookIdArrayOffset + hookCount * sizeof(hookId)` formula. -/
def sizeofXdpHookId : Nat := 12

/-- Spec-side qualification of one mode slot in the
`FindAndReferenceBinding` scan: the slot holds a binding, the binding's mode
passes the optional mode filter, and it supports every required hook id. -/
def slotQualifies (HookIds : List XDP_HOOK_ID)
    (RequiredMode : Option XDP_INTERFACE_MODE) (Mode : XDP_INTERFACE_MODE) :
    Option XDP_INTERFACE → Bool
  | none => false
  | some c =>
    (RequiredMode = none ∨ RequiredMode = some Mode : Bool) &&
      XdpIfpSupportsHookIds c.Capabilities HookIds

/-- Concrete capability blob whose hook-id array (offset 1000, 4 hooks) lies
far outside the declared 64-byte total size while the driver-API-version
array (offset 32, 0 entries) is in bounds. -/
def hookOobCaps : XDP_CAPABILITIES_EX :=
  { Header := ⟨1, 32⟩
    InstanceId := 0
    hookIdArrayOffset := 1000
    hookCount := 4
    DriverApiVersionsOffset := 32
    DriverApiVersionCount := 0
    DriverApiVersions := [] }

/-- An add-interface descriptor carrying `hookOobCaps`, with both
environment outcomes succeeding. -/
def hookOobAddIf : XDP_ADD_INTERFACE :=
  { InterfaceCapabilities :=
      { Mode := .GENERIC
        Hooks := [⟨1, 0, 0⟩]
        CapabilitiesEx := hookOobCaps
        CapabilitiesSize := 64 }
    InterfaceContext := some 1
    allocSucceeds := true
    workQueueSucceeds := true }

/-- A well-formed capability blob (revision 1, size 32, one advertised
version at offset 32, total size 64). -/
def validCaps : XDP_CAPABILITIES_EX :=
  { Header := ⟨1, 32⟩
    InstanceId := 0
    hookIdArrayOffset := 0
    hookCount := 1
    DriverApiVersionsOffset := 32
    DriverApiVersionCount := 1
    DriverApiVersions := [⟨1, 0, 0⟩] }

/-- A descriptor that passes validation and whose environment outcomes
succeed (generic mode). -/
def goodAddIf : XDP_ADD_INTERFACE :=
  { InterfaceCapabilities :=
      { Mode := .GENERIC
        Hooks := [⟨1, 0, 0⟩]
        CapabilitiesEx := validCaps
        CapabilitiesSize := 64 }
    InterfaceContext := some 2
    allocSucceeds := true
    workQueueSucceeds := true }

/-- A native-mode descriptor that passes validation but whose work-queue
creation fails. -/
def badAddIf : XDP_ADD_INTERFACE :=
  { InterfaceCapabilities :=
      { Mode := .NATIVE
        Hooks := [⟨1, 0, 0⟩]
        CapabilitiesEx := validCaps
        CapabilitiesSize := 64 }
    InterfaceContext := some 3
    allocSucceeds := true
    workQueueSucceeds := false }

/-- An interface set for interface index 7 with both mode slots empty. -/
def emptyIfSet : XDP_INTERFACE_SET :=
  { IfIndex := 7, Generic := none, Native := none }

/-- A quiescent binding for witnesses: no rundown flag set, no clients, no
open provider context. -/
def sampleInterface : XDP_INTERFACE :=
  { IfIndex := 7
    XdpIfInterfaceContext := some 1
    Capabilities :=
      { Mode := .GENERIC
        Hooks := [⟨1, 0, 0⟩]
        CapabilitiesEx := validCaps
        CapabilitiesSize := 64 }
    Nmr := none
    DriverApiVersion := ⟨0, 0, 0⟩
    InterfaceDispatch := none
    InterfaceContext := none
    ReferenceCount := 1
    Clients := []
    ProviderReference := 0
    BindingDeleting := false
    NmrDeleting := false }

/-- An open-interface environment in which every step succeeds. -/
def sampleEnv : OpenInterfaceEnv :=
  { nmrAllocSucceeds := true
    openProviderResult := .ok 11
    GetInterfaceDispatch := fun _ => some (21, 22)
    openInterfaceStatus := .STATUS_SUCCESS }

/-- A blob whose driver-API-version array offset (100) exceeds the declared
64-byte total size. -/
def versionOobCaps : XDP_CAPABILITIES_EX :=
  { Header := ⟨1, 32⟩
    InstanceId := 0
    hookIdArrayOffset := 0
    hookCount := 0
    DriverApiVersionsOffset := 100
    DriverApiVersionCount := 0
    DriverApiVersions := [] }

/-- A descriptor carrying `versionOobCaps`, with both environment outcomes
succeeding. -/
def versionOobAddIf : XDP_ADD_INTERFACE :=
  { InterfaceCapabilities :=
      { Mode := .GENERIC
        Hooks := [⟨1, 0, 0⟩]
        CapabilitiesEx := versionOobCaps
        CapabilitiesSize := 64 }
    InterfaceContext := some 1
    allocSucceeds := true
    workQueueSucceeds := true }

/-- Whether any handle cell of an `XdpIfAddInterfaces` batch holds a created
binding of the given mode. -/
def handleHasMode (m : XDP_INTERFACE_MODE) (hs : List (Option XDP_INTERFACE)) :
    Bool :=
  hs.any fun h =>
    match h with
    | some Interface => Interface.Capabilities.Mode == m
    | none => false

/-- Fixture: `sampleInterface` undergoing provider-initiated (NMR) rundown only. -/
def nmrDeletingInterface : XDP_INTERFACE :=
  { sampleInterface with NmrDeleting := true }

/-- An environment in which the provider channel opens but every dispatch
request fails, so negotiation fails. -/
def failEnv : OpenInterfaceEnv :=
  { sampleEnv with GetInterfaceDispatch := fun _ => none }

/-- Fixture: `sampleInterface` with two linked clients, for rundown witnesses. -/
def twoClientInterface : XDP_INTERFACE :=
  { sampleInterface with
    Clients := [⟨1, 10, true⟩, ⟨2, 20, true⟩],
    ReferenceCount := 3 }

/-! ## Theorems -/

/-- C2: `XdpRequestClientDispatch` iterates the provider-advertised version
list in provider order and succeeds with exactly the first candidate that
both passes `XdpVersionIsSupported` (same major, minor and patch at least
the candidate's) and whose dispatch request succeeds; a failed dispatch
request merely moves iteration on to the next candidate; if no candidate
satisfies both conditions the result is `STATUS_NOT_SUPPORTED`. -/
theorem xdpRequestClientDispatch_first_accepted (cur : XDP_VERSION)
    (gd : GetDispatchOracle) (vs : List XDP_VERSION) :
    XdpRequestClientDispatch cur gd vs =
      match vs.find? (candidateAccepted cur gd) with
      | none => .error .STATUS_NOT_SUPPORTED
      | some v => .ok (v, ((gd v).getD (0, 0)).1, ((gd v).getD (0, 0)).2) := by
  induction vs with
  | nil => rfl
  | cons v rest ih =>
    by_cases hsup : XdpVersionIsSupported cur v
    · rcases hgd : gd v with _ | ⟨ctx, disp⟩
      · have hacc : candidateAccepted cur gd v = false := by
          simp [candidateAccepted, hsup, hgd]
        simp [XdpRequestClientDispatch, hsup, hgd, List.find?, hacc, ih]
      · have hacc : candidateAccepted cur gd v = true := by
          simp [candidateAccepted, hsup, hgd]
        simp [XdpRequestClientDispatch, hsup, hgd, List.find?, hacc]
    · have hacc : candidateAccepted cur gd v = false := by
        simp [candidateAccepted, hsup]
      have hsup' : XdpVersionIsSupported cur v = false := by
        simp [hsup]
      simp [XdpRequestClientDispatch, hsup', List.find?, hacc, ih]

/-- C6: the provider-attachment (NMR) context opens with a private
reference count of exactly 2; the consumer-initiated close path and the
detach-callback work item each decrement it exactly once, in either order;
after the first of the two the object is still live with count 1, and it is
freed exactly when the second brings the count to zero. -/
theorem nmr_private_refcount_two_paths (handle : Nat) :
    (nmrOpened handle).ReferenceCount = 2 ∧
    (nmrOpened handle).Freed = false ∧
    (XdpIfpCloseNmrInterface (nmrOpened handle)).ReferenceCount = 1 ∧
    (XdpIfpCloseNmrInterface (nmrOpened handle)).Freed = false ∧
    (XdpIfpInterfaceNmrDeleteNmr (XdpIfpCloseNmrInterface (nmrOpened handle))).ReferenceCount = 0 ∧
    (XdpIfpInterfaceNmrDeleteNmr (XdpIfpCloseNmrInterface (nmrOpened handle))).Freed = true ∧
    (XdpIfpInterfaceNmrDeleteNmr (nmrOpened handle)).ReferenceCount = 1 ∧
    (XdpIfpInterfaceNmrDeleteNmr (nmrOpened handle)).Freed = false ∧
    (XdpIfpCloseNmrInterface (XdpIfpInterfaceNmrDeleteNmr (nmrOpened handle))).ReferenceCount = 0 ∧
    (XdpIfpCloseNmrInterface (XdpIfpInterfaceNmrDeleteNmr (nmrOpened handle))).Freed = true := by
  refine ⟨rfl, rfl, rfl, rfl, rfl, rfl, rfl, rfl, rfl, rfl⟩

/-- C1 (counterexample): a blob whose hook-id array, per the claim's
`hookIdArrayOffset + hookCount * sizeof(hookId)` formula, lies far outside
the declared 64-byte total size nevertheless passes
`XdpValidateCapabilitiesEx`, and `XdpIfAddInterfaces` accepts its descriptor
and creates a binding — refuting the claim that validation rejects every
blob with an out-of-bounds hook-id array. -/
theorem hookArray_not_checked_cex :
    64 < hookOobCaps.hookIdArrayOffset + hookOobCaps.hookCount * sizeofXdpHookId ∧
    XdpValidateCapabilitiesEx hookOobCaps 64 = true ∧
    (XdpIfAddInterfaces emptyIfSet [(hookOobAddIf, none)]).1 = .STATUS_SUCCESS ∧
    (XdpIfAddInterfaces emptyIfSet [(hookOobAddIf, none)]).2.1.Generic =
      some (mkInterface 7 hookOobAddIf) := by
  decide

/-- Characterization of `XdpValidateCapabilitiesEx`: it accepts exactly the
blobs with a new-enough header whose version-array end offset neither
overflows 32 bits nor exceeds the declared total size. -/
theorem xdpValidateCapabilitiesEx_iff (blob : XDP_CAPABILITIES_EX)
    (TotalSize : Nat) :
    XdpValidateCapabilitiesEx blob TotalSize = true ↔
      (XDP_CAPABILITIES_EX_REVISION_1 ≤ blob.Header.Revision ∧
       XDP_SIZEOF_CAPABILITIES_EX_REVISION_1 ≤ blob.Header.Size ∧
       blob.DriverApiVersionsOffset +
         blob.DriverApiVersionCount * sizeofXdpVersion < 2 ^ 32 ∧
       blob.DriverApiVersionsOffset +
         blob.DriverApiVersionCount * sizeofXdpVersion ≤ TotalSize) := by
  unfold XdpValidateCapabilitiesEx RtlUInt32Mult RtlUInt32Add
  split_ifs with hdr hm <;> try simp at *
  · omega
  · split_ifs with ha <;> try simp at *
    · omega
    · omega
  · omega

/-- C1 (amended): `XdpValidateCapabilitiesEx` rejects every blob whose
driver-API-version array is out of bounds — whenever
`DriverApiVersionsOffset + DriverApiVersionCount * sizeof(XDP_VERSION)`
overflows 32 bits or exceeds the blob's declared total size, validation
returns false, and `XdpIfAddInterfaces` fails for that descriptor with
`STATUS_NOT_SUPPORTED`, leaving the interface set unchanged and no binding
created.  (The hook-id array is not bounds-checked by the validator.) -/
theorem xdpValidateCapabilitiesEx_version_bounds (blob : XDP_CAPABILITIES_EX)
    (IfSet : XDP_INTERFACE_SET) (AddIf : XDP_ADD_INTERFACE) (TotalSize : Nat)
    (hblob : AddIf.InterfaceCapabilities.CapabilitiesEx = blob)
    (hsize : AddIf.InterfaceCapabilities.CapabilitiesSize = TotalSize)
    (hoob : 2 ^ 32 ≤ blob.DriverApiVersionsOffset +
        blob.DriverApiVersionCount * sizeofXdpVersion ∨
      TotalSize < blob.DriverApiVersionsOffset +
        blob.DriverApiVersionCount * sizeofXdpVersion) :
    XdpValidateCapabilitiesEx blob TotalSize = false ∧
    XdpIfAddInterfaces IfSet [(AddIf, none)] =
      (.STATUS_NOT_SUPPORTED, IfSet, [none], []) := by
  have hval : XdpValidateCapabilitiesEx blob TotalSize = false := by
    rw [Bool.eq_false_iff, Ne, xdpValidateCapabilitiesEx_iff]
    rintro ⟨-, -, h3, h4⟩
    simp only [sizeofXdpVersion] at h3 h4 hoob
    omega
  have hval' : XdpValidateCapabilitiesEx AddIf.InterfaceCapabilities.CapabilitiesEx
      AddIf.InterfaceCapabilities.CapabilitiesSize = false := by
    rw [hblob, hsize]; exact hval
  refine ⟨hval, ?_⟩
  simp [XdpIfAddInterfaces, XdpIfpAddInterfacesLoop, hval', NT_SUCCESS,
    XdpIfpAddInterfacesUnwind]

/-- C1 (witness): the amended theorem applied to the concrete blob
`versionOobCaps`, whose version-array offset 100 exceeds the declared total
size 64. -/
theorem xdpValidateCapabilitiesEx_version_bounds_witness :
    XdpValidateCapabilitiesEx versionOobCaps 64 = false ∧
    XdpIfAddInterfaces emptyIfSet [(versionOobAddIf, none)] =
      (.STATUS_NOT_SUPPORTED, emptyIfSet, [none], []) :=
  xdpValidateCapabilitiesEx_version_bounds versionOobCaps emptyIfSet
    versionOobAddIf 64 rfl rfl (by decide)

/-- C8: `XdpIfRegisterClient` returns `STATUS_DELETE_PENDING` when the
binding is marked for deletion and `STATUS_DUPLICATE_OBJECTID` when an entry
with the same (component-id, key) pair is already linked, leaving the client
list and reference count unchanged in both cases; otherwise it succeeds,
links the entry at the tail, and increments the existence count by exactly
one. -/
theorem xdpIfRegisterClient_spec (Interface : XDP_INTERFACE)
    (ClientId Key : Nat) :
    (Interface.BindingDeleting = true →
      XdpIfRegisterClient Interface ClientId Key =
        (.STATUS_DELETE_PENDING, Interface)) ∧
    (Interface.BindingDeleting = false →
      (∃ e ∈ Interface.Clients, e.ClientId = ClientId ∧ e.Key = Key) →
      XdpIfRegisterClient Interface ClientId Key =
        (.STATUS_DUPLICATE_OBJECTID, Interface)) ∧
    (Interface.BindingDeleting = false →
      (∀ e ∈ Interface.Clients, ¬(e.ClientId = ClientId ∧ e.Key = Key)) →
      (XdpIfRegisterClient Interface ClientId Key).1 = .STATUS_SUCCESS ∧
      (XdpIfRegisterClient Interface ClientId Key).2.Clients =
        Interface.Clients ++ [⟨ClientId, Key, true⟩] ∧
      (XdpIfRegisterClient Interface ClientId Key).2.ReferenceCount =
        Interface.ReferenceCount + 1) := by
  refine ⟨?_, ?_, ?_⟩
  · intro h
    simp [XdpIfRegisterClient, h]
  · intro h hdup
    have hany : Interface.Clients.any
        (fun c => c.ClientId == ClientId && c.Key == Key) = true := by
      rcases hdup with ⟨e, he, h1, h2⟩
      exact List.any_eq_true.mpr ⟨e, he, by simp [h1, h2]⟩
    simp [XdpIfRegisterClient, h, hany]
  · intro h hnone
    have hany : Interface.Clients.any
        (fun c => c.ClientId == ClientId && c.Key == Key) = false := by
      rw [List.any_eq_false]
      intro e he
      have := hnone e he
      simp only [Bool.and_eq_true, beq_iff_eq, not_and]
      tauto
    simp [XdpIfRegisterClient, h, hany, XdpIfpReferenceInterface]

/-- C8 (witness): registering client (1, 2) on the quiescent
`sampleInterface` succeeds, appends the entry, and increments the existence
count. -/
theorem xdpIfRegisterClient_spec_witness :
    (XdpIfRegisterClient sampleInterface 1 2).1 = .STATUS_SUCCESS ∧
    (XdpIfRegisterClient sampleInterface 1 2).2.Clients =
      sampleInterface.Clients ++ [⟨1, 2, true⟩] ∧
    (XdpIfRegisterClient sampleInterface 1 2).2.ReferenceCount =
      sampleInterface.ReferenceCount + 1 :=
  (xdpIfRegisterClient_spec sampleInterface 1 2).2.2 rfl (by decide)

/-- C9: `XdpIfDeregisterClient` is idempotent — the first call on a linked
entry unlinks it and releases exactly one existence reference, a call on an
unlinked entry changes neither the client list nor the reference count, and
repeating the call after the first changes nothing further. -/
theorem xdpIfDeregisterClient_idempotent (Interface : XDP_INTERFACE)
    (ClientEntry : XDP_BINDING_CLIENT_ENTRY) :
    (ClientEntry.Linked = false →
      XdpIfDeregisterClient Interface ClientEntry = (Interface, ClientEntry)) ∧
    (ClientEntry.Linked = true →
      (XdpIfDeregisterClient Interface ClientEntry).1.Clients =
        Interface.Clients.erase ClientEntry ∧
      (XdpIfDeregisterClient Interface ClientEntry).1.ReferenceCount =
        Interface.ReferenceCount - 1 ∧
      (XdpIfDeregisterClient Interface ClientEntry).2.Linked = false) ∧
    XdpIfDeregisterClient (XdpIfDeregisterClient Interface ClientEntry).1
        (XdpIfDeregisterClient Interface ClientEntry).2 =
      XdpIfDeregisterClient Interface ClientEntry := by
  refine ⟨?_, ?_, ?_⟩
  · intro h
    simp [XdpIfDeregisterClient, h]
  · intro h
    simp [XdpIfDeregisterClient, h, XdpIfpDereferenceInterface]
  · by_cases h : ClientEntry.Linked <;>
      simp [XdpIfDeregisterClient, h, XdpIfpDereferenceInterface]

/-- C9 (witness): deregistering a never-linked entry leaves the binding and
the entry unchanged. -/
theorem xdpIfDeregisterClient_idempotent_witness :
    XdpIfDeregisterClient sampleInterface ⟨1, 2, false⟩ =
      (sampleInterface, ⟨1, 2, false⟩) :=
  (xdpIfDeregisterClient_idempotent sampleInterface ⟨1, 2, false⟩).1 rfl

/-- C10: with `NmrDeleting` set but `BindingDeleting` clear, client
registration is not refused with `STATUS_DELETE_PENDING` (and succeeds when
no duplicate is present), whereas queue creation — which goes through
`XdpIfpReferenceProvider` and reads the combined `Rundown` flags — fails
with `STATUS_DELETE_PENDING`. -/
theorem nmrDeleting_register_vs_queue (Interface : XDP_INTERFACE)
    (ClientId Key : Nat) (env : OpenInterfaceEnv)
    (createStatus : NTSTATUS) (createQueue : Nat × Nat)
    (hn : Interface.NmrDeleting = true)
    (hb : Interface.BindingDeleting = false) :
    (XdpIfRegisterClient Interface ClientId Key).1 ≠ .STATUS_DELETE_PENDING ∧
    ((∀ e ∈ Interface.Clients, ¬(e.ClientId = ClientId ∧ e.Key = Key)) →
      (XdpIfRegisterClient Interface ClientId Key).1 = .STATUS_SUCCESS) ∧
    (XdpIfpReferenceProvider Interface env).1 = .STATUS_DELETE_PENDING ∧
    (XdpIfCreateRxQueue Interface env createStatus createQueue).1 =
      .STATUS_DELETE_PENDING := by
  have hrd : Interface.Rundown = true := by
    simp [XDP_INTERFACE.Rundown, hn]
  have href : (XdpIfpReferenceProvider Interface env).1 =
      .STATUS_DELETE_PENDING := by
    simp [XdpIfpReferenceProvider, hrd]
  refine ⟨?_, ?_, href, ?_⟩
  · by_cases hdup : Interface.Clients.any
        (fun c => c.ClientId == ClientId && c.Key == Key) <;>
      simp [XdpIfRegisterClient, hb, hdup]
  · intro hnone
    have hany : Interface.Clients.any
        (fun c => c.ClientId == ClientId && c.Key == Key) = false := by
      rw [List.any_eq_false]
      intro e he
      have := hnone e he
      simp only [Bool.and_eq_true, beq_iff_eq, not_and]
      tauto
    simp [XdpIfRegisterClient, hb, hany]
  · simp [XdpIfCreateRxQueue, href, NT_SUCCESS]

/-- C10 (witness): the distinction at the concrete binding
`nmrDeletingInterface`: registration of client (1, 2) succeeds while
`XdpIfpReferenceProvider` and `XdpIfCreateRxQueue` fail with
`STATUS_DELETE_PENDING`. -/
theorem nmrDeleting_register_vs_queue_witness :
    (XdpIfRegisterClient nmrDeletingInterface 1 2).1 ≠ .STATUS_DELETE_PENDING ∧
    ((∀ e ∈ nmrDeletingInterface.Clients, ¬(e.ClientId = 1 ∧ e.Key = 2)) →
      (XdpIfRegisterClient nmrDeletingInterface 1 2).1 = .STATUS_SUCCESS) ∧
    (XdpIfpReferenceProvider nmrDeletingInterface sampleEnv).1 =
      .STATUS_DELETE_PENDING ∧
    (XdpIfCreateRxQueue nmrDeletingInterface sampleEnv .STATUS_SUCCESS (9, 9)).1 =
      .STATUS_DELETE_PENDING :=
  nmrDeleting_register_vs_queue nmrDeletingInterface 1 2 sampleEnv
    .STATUS_SUCCESS (9, 9) rfl rfl

/-- Lemma: `XdpIfpCloseInterface` touches only the provider-context, dispatch, NMR
and deregistration fields: the existence count, client list, provider-usage
count and rundown origin flag are preserved, and afterwards no provider
context or NMR attachment remains. -/
theorem xdpIfpCloseInterface_fields (Interface : XDP_INTERFACE) :
    (XdpIfpCloseInterface Interface).ReferenceCount = Interface.ReferenceCount ∧
    (XdpIfpCloseInterface Interface).Clients = Interface.Clients ∧
    (XdpIfpCloseInterface Interface).ProviderReference = Interface.ProviderReference ∧
    (XdpIfpCloseInterface Interface).BindingDeleting = Interface.BindingDeleting ∧
    (XdpIfpCloseInterface Interface).InterfaceContext = none ∧
    (XdpIfpCloseInterface Interface).Nmr = none := by
  rcases hic : Interface.InterfaceContext with _ | ctx <;>
    rcases hn : Interface.Nmr with _ | nmr <;>
      simp only [XdpIfpCloseInterface, hic, hn, Option.isSome_none,
        Option.isSome_some, if_true, if_false, Bool.false_eq_true] <;>
      split_ifs <;>
      simp_all

/-- The client-walk loop of rundown releases one existence reference per
entry and notifies the entries in list order, each unlinked. -/
theorem xdpIfpRundownClients_spec (ReferenceCount : Int)
    (l : List XDP_BINDING_CLIENT_ENTRY) :
    XdpIfpRundownClients ReferenceCount l =
      (ReferenceCount - l.length,
        l.map fun e => { e with Linked := false }) := by
  induction l generalizing ReferenceCount with
  | nil => simp [XdpIfpRundownClients]
  | cons e rest ih =>
    simp [XdpIfpRundownClients, ih]
    ring

/-- C5: `XdpIfpStartRundown` closes the provider attachment immediately iff
the provider-usage count is zero at entry (leaving the provider context and
NMR fields untouched otherwise), then unlinks every entry of the attached
client list, invokes each client's detach notification exactly once (in
list order), and releases exactly one existence reference per entry, ending
with an empty client list. -/
theorem xdpIfpStartRundown_spec (Interface : XDP_INTERFACE) :
    ((XdpIfpStartRundown Interface).2.1 = true ↔
      Interface.ProviderReference = 0) ∧
    (Interface.ProviderReference = 0 →
      (XdpIfpStartRundown Interface).1.InterfaceContext = none ∧
      (XdpIfpStartRundown Interface).1.Nmr = none) ∧
    (Interface.ProviderReference ≠ 0 →
      (XdpIfpStartRundown Interface).1.InterfaceContext =
        Interface.InterfaceContext ∧
      (XdpIfpStartRundown Interface).1.Nmr = Interface.Nmr) ∧
    (XdpIfpStartRundown Interface).2.2 =
      Interface.Clients.map (fun e => { e with Linked := false }) ∧
    (XdpIfpStartRundown Interface).1.Clients = [] ∧
    (XdpIfpStartRundown Interface).1.ReferenceCount =
      Interface.ReferenceCount - Interface.Clients.length := by
  obtain ⟨hrc, hcl, -, -, hic, hnmr⟩ := xdpIfpCloseInterface_fields Interface
  by_cases hp : Interface.ProviderReference = 0 <;>
    simp [XdpIfpStartRundown, hp, xdpIfpRundownClients_spec, hrc, hcl, hic, hnmr]

/-- Lemma: `XdpIfpOpenInterface` never touches the provider-usage count, whichever
of its success or unwind paths runs. -/
theorem xdpIfpOpenInterface_providerRef (Interface : XDP_INTERFACE)
    (env : OpenInterfaceEnv) :
    (XdpIfpOpenInterface Interface env).2.ProviderReference =
      Interface.ProviderReference := by
  have hcl : ∀ j : XDP_INTERFACE,
      (XdpIfpCloseInterface j).ProviderReference = j.ProviderReference :=
    fun j => (xdpIfpCloseInterface_fields j).2.2.1
  by_cases hdr : Interface.Capabilities.CapabilitiesEx.Header.Revision <
      XDP_CAPABILITIES_EX_REVISION_1 ∨
      Interface.Capabilities.CapabilitiesEx.Header.Size <
      XDP_SIZEOF_CAPABILITIES_EX_REVISION_1
  · simp [XdpIfpOpenInterface, hdr]
  · by_cases hal : env.nmrAllocSucceeds
    · rcases hop : env.openProviderResult with st | handle
      · simp [XdpIfpOpenInterface, hdr, hal, hop, XdpIfpDereferenceInterface,
          XdpIfpReferenceInterface]
      · rcases hneg : XdpRequestClientDispatch XdpDriverApiCurrentVersion
            env.GetInterfaceDispatch
            Interface.Capabilities.CapabilitiesEx.DriverApiVersions with
          st | vcd
        · simp [XdpIfpOpenInterface, hdr, hal, hop, hneg, hcl,
            XdpIfpReferenceInterface]
        · rcases vcd with ⟨v, ctx, disp⟩
          by_cases hos : NT_SUCCESS env.openInterfaceStatus
          · simp [XdpIfpOpenInterface, hdr, hal, hop, hneg, hos,
              XdpIfpReferenceInterface]
          · simp [XdpIfpOpenInterface, hdr, hal, hop, hneg, hos, hcl,
              XdpIfpReferenceInterface]
    · simp [XdpIfpOpenInterface, hdr, hal]

/-- Lemma: `XdpIfpReferenceProvider` leaves the provider-usage count at one more
than before exactly on success and unchanged on failure, and propagates the
open's failure status when the provider attachment had to be opened. -/
theorem xdpIfpReferenceProvider_refcount (Interface : XDP_INTERFACE)
    (env : OpenInterfaceEnv) :
    (NT_SUCCESS (XdpIfpReferenceProvider Interface env).1 = true →
      (XdpIfpReferenceProvider Interface env).2.ProviderReference =
        Interface.ProviderReference + 1) ∧
    (NT_SUCCESS (XdpIfpReferenceProvider Interface env).1 = false →
      (XdpIfpReferenceProvider Interface env).2.ProviderReference =
        Interface.ProviderReference) ∧
    (Interface.Rundown = false → Interface.InterfaceContext = none →
      NT_SUCCESS (XdpIfpOpenInterface Interface env).1 = false →
      (XdpIfpReferenceProvider Interface env).1 =
        (XdpIfpOpenInterface Interface env).1) := by
  by_cases hr : Interface.Rundown
  · have h1 : XdpIfpReferenceProvider Interface env =
        (.STATUS_DELETE_PENDING, Interface) := by
      simp [XdpIfpReferenceProvider, hr]
    refine ⟨?_, ?_, ?_⟩
    · intro h
      rw [h1] at h
      cases h
    · intro _
      rw [h1]
    · intro hrz _ _
      rw [hrz] at hr
      exact (Bool.false_ne_true hr).elim
  · have hopr := xdpIfpOpenInterface_providerRef Interface env
    by_cases hic : Interface.InterfaceContext = none
    · by_cases hs : NT_SUCCESS (XdpIfpOpenInterface Interface env).1
      · have h1 : XdpIfpReferenceProvider Interface env =
            (.STATUS_SUCCESS,
              { (XdpIfpOpenInterface Interface env).2 with
                ProviderReference :=
                  (XdpIfpOpenInterface Interface env).2.ProviderReference + 1 }) := by
          simp [XdpIfpReferenceProvider, hr, hic, hs]
        refine ⟨?_, ?_, ?_⟩
        · intro _
          rw [h1]
          simp [hopr]
        · intro h
          rw [h1] at h
          cases h
        · intro _ _ hof
          rw [hof] at hs
          cases hs
      · have h1 : XdpIfpReferenceProvider Interface env =
            ((XdpIfpOpenInterface Interface env).1,
              (XdpIfpOpenInterface Interface env).2) := by
          simp [XdpIfpReferenceProvider, hr, hic, hs]
        refine ⟨?_, ?_, ?_⟩
        · intro h
          rw [h1] at h
          exact absurd h hs
        · intro _
          rw [h1]
          exact hopr
        · intro _ _ _
          rw [h1]
    · have h1 : XdpIfpReferenceProvider Interface env =
          (.STATUS_SUCCESS,
            { Interface with
              ProviderReference := Interface.ProviderReference + 1 }) := by
        have hnt : NT_SUCCESS .STATUS_SUCCESS = true := rfl
        simp [XdpIfpReferenceProvider, hr, hic, hnt]
      refine ⟨?_, ?_, ?_⟩
      · intro _
        rw [h1]
      · intro h
        rw [h1] at h
        cases h
      · intro _ hic2 _
        exact absurd hic2 hic

/-- Lemma: `XdpIfpDereferenceProvider` always leaves the provider-usage count at
one less than before. -/
theorem xdpIfpDereferenceProvider_refcount (Interface : XDP_INTERFACE) :
    (XdpIfpDereferenceProvider Interface).ProviderReference =
      Interface.ProviderReference - 1 := by
  have hcl : ∀ j : XDP_INTERFACE,
      (XdpIfpCloseInterface j).ProviderReference = j.ProviderReference :=
    fun j => (xdpIfpCloseInterface_fields j).2.2.1
  simp only [XdpIfpDereferenceProvider]
  split_ifs with h <;> simp [hcl]

/-- C7: `XdpIfCreateRxQueue` first takes one provider-usage reference
(success leaves the count at one more than before); when the provider
attachment has to be opened and that open fails, its status is returned and
the provider-usage count is unchanged; when the provider's queue-create
call fails, the just-taken reference is released and the provider's status
is returned unchanged — after any failed call the provider-usage count
equals its value before the call. -/
theorem xdpIfCreateRxQueue_provider_refcount (Interface : XDP_INTERFACE)
    (env : OpenInterfaceEnv) (createStatus : NTSTATUS) (createQueue : Nat × Nat) :
    (NT_SUCCESS (XdpIfCreateRxQueue Interface env createStatus createQueue).1 = false →
      (XdpIfCreateRxQueue Interface env createStatus createQueue).2.1.ProviderReference =
        Interface.ProviderReference) ∧
    (NT_SUCCESS (XdpIfCreateRxQueue Interface env createStatus createQueue).1 = true →
      (XdpIfCreateRxQueue Interface env createStatus createQueue).2.1.ProviderReference =
        Interface.ProviderReference + 1) ∧
    (Interface.Rundown = false → Interface.InterfaceContext = none →
      NT_SUCCESS (XdpIfpOpenInterface Interface env).1 = false →
      (XdpIfCreateRxQueue Interface env createStatus createQueue).1 =
        (XdpIfpOpenInterface Interface env).1) ∧
    (NT_SUCCESS (XdpIfpReferenceProvider Interface env).1 = true →
      NT_SUCCESS createStatus = false →
      (XdpIfCreateRxQueue Interface env createStatus createQueue).1 =
        createStatus) := by
  obtain ⟨hrp1, hrp0, hrpst⟩ := xdpIfpReferenceProvider_refcount Interface env
  by_cases hs : NT_SUCCESS (XdpIfpReferenceProvider Interface env).1
  · by_cases hcs : NT_SUCCESS createStatus
    · refine ⟨?_, ?_, ?_, ?_⟩
      · intro hfail
        rw [show (XdpIfCreateRxQueue Interface env createStatus createQueue).1 =
            createStatus by simp [XdpIfCreateRxQueue, hs, hcs]] at hfail
        rw [hcs] at hfail
        cases hfail
      · intro _
        simp [XdpIfCreateRxQueue, hs, hcs, hrp1 hs]
      · intro hrz hic hof
        have := hrpst hrz hic hof
        rw [this, hof] at hs
        cases hs
      · intro _ hcs'
        rw [hcs] at hcs'
        cases hcs'
    · refine ⟨?_, ?_, ?_, ?_⟩
      · intro _
        simp [XdpIfCreateRxQueue, hs, hcs,
          xdpIfpDereferenceProvider_refcount, hrp1 hs]
      · intro hsucc
        rw [show (XdpIfCreateRxQueue Interface env createStatus createQueue).1 =
            createStatus by simp [XdpIfCreateRxQueue, hs, hcs]] at hsucc
        simp [hsucc] at hcs
      · intro hrz hic hof
        have := hrpst hrz hic hof
        rw [this, hof] at hs
        cases hs
      · intro _ _
        simp [XdpIfCreateRxQueue, hs, hcs]
  · have hs' : NT_SUCCESS (XdpIfpReferenceProvider Interface env).1 = false := by
      simpa using hs
    refine ⟨?_, ?_, ?_, ?_⟩
    · intro _
      simp [XdpIfCreateRxQueue, hs, hrp0 hs']
    · intro hsucc
      rw [show (XdpIfCreateRxQueue Interface env createStatus createQueue).1 =
          (XdpIfpReferenceProvider Interface env).1 by
        simp [XdpIfCreateRxQueue, hs]] at hsucc
      rw [hsucc] at hs'
      cases hs'
    · intro hrz hic hof
      have heq := hrpst hrz hic hof
      rw [show (XdpIfCreateRxQueue Interface env createStatus createQueue).1 =
          (XdpIfpReferenceProvider Interface env).1 by
        simp [XdpIfCreateRxQueue, hs]]
      exact heq
    · intro habs _
      rw [habs] at hs'
      cases hs'

/-- C5 (witness): rundown of `twoClientInterface` (provider-usage count 0,
two linked clients): the provider attachment is closed immediately, both
clients are notified in order, and two existence references are released. -/
theorem xdpIfpStartRundown_spec_witness :
    twoClientInterface.ProviderReference = 0 ∧
    ((XdpIfpStartRundown twoClientInterface).1.InterfaceContext = none ∧
      (XdpIfpStartRundown twoClientInterface).1.Nmr = none) ∧
    (XdpIfpStartRundown twoClientInterface).2.2 =
      twoClientInterface.Clients.map (fun e => { e with Linked := false }) ∧
    (XdpIfpStartRundown twoClientInterface).1.Clients = [] ∧
    (XdpIfpStartRundown twoClientInterface).1.ReferenceCount =
      twoClientInterface.ReferenceCount - twoClientInterface.Clients.length :=
  ⟨rfl, (xdpIfpStartRundown_spec twoClientInterface).2.1 rfl,
    (xdpIfpStartRundown_spec twoClientInterface).2.2.2.1,
    (xdpIfpStartRundown_spec twoClientInterface).2.2.2.2.1,
    (xdpIfpStartRundown_spec twoClientInterface).2.2.2.2.2⟩

/-- C7 (witness): on `sampleInterface` (provider-usage count 0, no open
context) with `failEnv` (negotiation fails), `XdpIfCreateRxQueue` returns
the open's failure status and the provider-usage count remains 0. -/
theorem xdpIfCreateRxQueue_provider_refcount_witness :
    sampleInterface.Rundown = false ∧
    sampleInterface.InterfaceContext = none ∧
    NT_SUCCESS (XdpIfpOpenInterface sampleInterface failEnv).1 = false ∧
    (XdpIfCreateRxQueue sampleInterface failEnv .STATUS_SUCCESS (9, 9)).1 =
      (XdpIfpOpenInterface sampleInterface failEnv).1 ∧
    (XdpIfCreateRxQueue sampleInterface failEnv
        .STATUS_SUCCESS (9, 9)).2.1.ProviderReference =
      sampleInterface.ProviderReference :=
  ⟨rfl, rfl, by decide,
    (xdpIfCreateRxQueue_provider_refcount sampleInterface failEnv
      .STATUS_SUCCESS (9, 9)).2.2.1 rfl rfl (by decide),
    (xdpIfCreateRxQueue_provider_refcount sampleInterface failEnv
      .STATUS_SUCCESS (9, 9)).1 (by decide)⟩

/-- C4: `XdpIfFindAndReferenceBinding` returns `none` when no interface set
exists for the index or no slotted binding passes the optional mode filter
and supports every required hook id; otherwise it returns the last matching
candidate in generic-before-native scan order — native preferred over
generic when both qualify — with its existence reference count incremented
exactly once. -/
theorem xdpIfFindAndReferenceBinding_spec
    (XdpInterfaceSets : List XDP_INTERFACE_SET) (IfIndex : Nat)
    (HookIds : List XDP_HOOK_ID) (RequiredMode : Option XDP_INTERFACE_MODE) :
    XdpIfFindAndReferenceBinding XdpInterfaceSets IfIndex HookIds RequiredMode =
      match XdpIfpFindIfSet XdpInterfaceSets IfIndex with
      | none => none
      | some IfSet =>
        (if slotQualifies HookIds RequiredMode .NATIVE IfSet.Native then
          IfSet.Native
        else if slotQualifies HookIds RequiredMode .GENERIC IfSet.Generic then
          IfSet.Generic
        else none).map XdpIfpReferenceInterface := by
  unfold XdpIfFindAndReferenceBinding XdpIfpFindInterface
  rcases hfind : XdpIfpFindIfSet XdpInterfaceSets IfIndex with _ | IfSet
  · rfl
  · rcases hg : IfSet.Generic with _ | gi <;>
      rcases hnv : IfSet.Native with _ | ni <;>
        rcases RequiredMode with _ | m <;>
          try cases m
    all_goals
      simp only [findInterfaceStep, slotQualifies, XDP_INTERFACE_SET.slot,
        hg, hnv]
    all_goals
      split_ifs <;> simp_all [findInterfaceStep]

/-- Reading back the slot just written. -/
theorem slot_setSlot_same (IfSet : XDP_INTERFACE_SET)
    (m : XDP_INTERFACE_MODE) (v : Option XDP_INTERFACE) :
    (IfSet.setSlot m v).slot m = v := by
  cases m <;> rfl

/-- Writing one mode slot leaves the other unchanged. -/
theorem slot_setSlot_other (IfSet : XDP_INTERFACE_SET)
    (m m' : XDP_INTERFACE_MODE) (v : Option XDP_INTERFACE) (h : m ≠ m') :
    (IfSet.setSlot m v).slot m' = IfSet.slot m' := by
  cases m <;> cases m' <;>
    simp_all [XDP_INTERFACE_SET.setSlot, XDP_INTERFACE_SET.slot]

/-- Writing a slot does not change the set's interface index. -/
theorem setSlot_IfIndex (IfSet : XDP_INTERFACE_SET)
    (m : XDP_INTERFACE_MODE) (v : Option XDP_INTERFACE) :
    (IfSet.setSlot m v).IfIndex = IfSet.IfIndex := by
  cases m <;> rfl

/-- Two interface sets with the same index and the same two slots are
equal. -/
theorem ifSet_ext (s t : XDP_INTERFACE_SET) (h1 : s.IfIndex = t.IfIndex)
    (hg : s.slot .GENERIC = t.slot .GENERIC)
    (hn : s.slot .NATIVE = t.slot .NATIVE) : s = t := by
  cases s
  cases t
  simp_all [XDP_INTERFACE_SET.slot]

/-- The forward loop returns one handle cell per descriptor. -/
theorem xdpIfpAddInterfacesLoop_length (IfSet : XDP_INTERFACE_SET)
    (ps : List (XDP_ADD_INTERFACE × Option XDP_INTERFACE)) :
    ((XdpIfpAddInterfacesLoop IfSet ps).2.2).length = ps.length := by
  induction ps generalizing IfSet with
  | nil => rfl
  | cons p rest ih =>
    rcases p with ⟨AddIf, handle⟩
    by_cases hv : XdpValidateCapabilitiesEx AddIf.InterfaceCapabilities.CapabilitiesEx
        AddIf.InterfaceCapabilities.CapabilitiesSize <;>
      by_cases ha : AddIf.allocSucceeds <;>
        by_cases hw : AddIf.workQueueSucceeds <;>
          simp [XdpIfpAddInterfacesLoop, hv, ha, hw, ih]

/-- The forward loop returns the first per-descriptor error, in processing
order. -/
theorem xdpIfpAddInterfacesLoop_status (IfSet : XDP_INTERFACE_SET)
    (ps : List (XDP_ADD_INTERFACE × Option XDP_INTERFACE)) :
    (XdpIfpAddInterfacesLoop IfSet ps).1 = firstAddError (ps.map Prod.fst) := by
  induction ps generalizing IfSet with
  | nil => rfl
  | cons p rest ih =>
    rcases p with ⟨AddIf, handle⟩
    by_cases hv : XdpValidateCapabilitiesEx AddIf.InterfaceCapabilities.CapabilitiesEx
        AddIf.InterfaceCapabilities.CapabilitiesSize <;>
      by_cases ha : AddIf.allocSucceeds <;>
        by_cases hw : AddIf.workQueueSucceeds <;>
          simp [XdpIfpAddInterfacesLoop, firstAddError, hv, ha, hw, ih]

/-- The forward loop never changes the set's interface index. -/
theorem xdpIfpAddInterfacesLoop_IfIndex (IfSet : XDP_INTERFACE_SET)
    (ps : List (XDP_ADD_INTERFACE × Option XDP_INTERFACE)) :
    (XdpIfpAddInterfacesLoop IfSet ps).2.1.IfIndex = IfSet.IfIndex := by
  induction ps generalizing IfSet with
  | nil => rfl
  | cons p rest ih =>
    rcases p with ⟨AddIf, handle⟩
    by_cases hv : XdpValidateCapabilitiesEx AddIf.InterfaceCapabilities.CapabilitiesEx
        AddIf.InterfaceCapabilities.CapabilitiesSize <;>
      by_cases ha : AddIf.allocSucceeds <;>
        by_cases hw : AddIf.workQueueSucceeds <;>
          simp [XdpIfpAddInterfacesLoop, hv, ha, hw, ih, setSlot_IfIndex]

/-- Modes of bindings created by the forward loop all come from the batch's
descriptors (given caller-nulled handle cells). -/
theorem xdpIfpAddInterfacesLoop_mode_in_batch (IfSet : XDP_INTERFACE_SET)
    (ps : List (XDP_ADD_INTERFACE × Option XDP_INTERFACE))
    (m : XDP_INTERFACE_MODE)
    (hnone : ∀ p ∈ ps, p.2 = none)
    (hmode : handleHasMode m (XdpIfpAddInterfacesLoop IfSet ps).2.2 = true) :
    ∃ p ∈ ps, p.1.InterfaceCapabilities.Mode = m := by
  induction ps generalizing IfSet with
  | nil => cases hmode
  | cons p rest ih =>
    rcases p with ⟨AddIf, handle⟩
    have hh : handle = none := hnone (AddIf, handle) (by simp)
    subst hh
    have hrest : ∀ p ∈ rest, p.2 = none := fun p hp => hnone p (by simp [hp])
    by_cases hv : XdpValidateCapabilitiesEx AddIf.InterfaceCapabilities.CapabilitiesEx
        AddIf.InterfaceCapabilities.CapabilitiesSize <;>
      by_cases ha : AddIf.allocSucceeds <;>
        by_cases hw : AddIf.workQueueSucceeds <;>
          simp only [XdpIfpAddInterfacesLoop, hv, ha, hw, not_true, not_false_iff,
            if_true, if_false, Bool.not_eq_true] at hmode
    case pos =>
      -- all three checks pass: head handle is the created binding
      rw [handleHasMode, List.any_cons] at hmode
      rcases Bool.or_eq_true_iff.mp hmode with hhead | htail
      · refine ⟨(AddIf, none), by simp, ?_⟩
        have := of_decide_eq_true hhead
        simpa [mkInterface] using beq_iff_eq.mp hhead
      · obtain ⟨p, hp, hpm⟩ := ih _ hrest htail
        exact ⟨p, by simp [hp], hpm⟩
    all_goals
      -- a failed check stops the loop with all-null handle cells
      first
      | (exfalso
         rw [handleHasMode, List.any_cons] at hmode
         rcases Bool.or_eq_true_iff.mp hmode with hhead | htail
         · cases hhead
         · rw [List.any_eq_true] at htail
           obtain ⟨h, hh, hmm⟩ := htail
           rw [List.mem_map] at hh
           obtain ⟨q, hq, hqe⟩ := hh
           rw [hrest q hq] at hqe
           subst hqe
           cases hmm)

/-- If no binding of a mode was created, the forward loop leaves that mode
slot untouched (given caller-nulled handle cells). -/
theorem xdpIfpAddInterfacesLoop_slot_untouched (IfSet : XDP_INTERFACE_SET)
    (ps : List (XDP_ADD_INTERFACE × Option XDP_INTERFACE))
    (m : XDP_INTERFACE_MODE)
    (hnone : ∀ p ∈ ps, p.2 = none)
    (hmode : handleHasMode m (XdpIfpAddInterfacesLoop IfSet ps).2.2 = false) :
    (XdpIfpAddInterfacesLoop IfSet ps).2.1.slot m = IfSet.slot m := by
  induction ps generalizing IfSet with
  | nil => rfl
  | cons p rest ih =>
    rcases p with ⟨AddIf, handle⟩
    have hh : handle = none := hnone (AddIf, handle) (by simp)
    subst hh
    have hrest : ∀ p ∈ rest, p.2 = none := fun p hp => hnone p (by simp [hp])
    by_cases hv : XdpValidateCapabilitiesEx AddIf.InterfaceCapabilities.CapabilitiesEx
        AddIf.InterfaceCapabilities.CapabilitiesSize <;>
      by_cases ha : AddIf.allocSucceeds <;>
        by_cases hw : AddIf.workQueueSucceeds <;>
          simp only [XdpIfpAddInterfacesLoop, hv, ha, hw, not_true, not_false_iff,
            if_true, if_false, Bool.not_eq_true] at hmode ⊢
    case pos =>
      rw [handleHasMode, List.any_cons, Bool.or_eq_false_iff] at hmode
      obtain ⟨hhead, htail⟩ := hmode
      have hne : AddIf.InterfaceCapabilities.Mode ≠ m := by
        intro he
        simp [mkInterface, he] at hhead
      rw [ih _ hrest htail, slot_setSlot_other _ _ _ _ hne]

/-- The unwind loop nulls every handle cell. -/
theorem xdpIfpAddInterfacesUnwind_handles (IfSet : XDP_INTERFACE_SET)
    (hs : List (Option XDP_INTERFACE)) :
    (XdpIfpAddInterfacesUnwind IfSet hs).2.1 = List.replicate hs.length none := by
  induction hs generalizing IfSet with
  | nil => rfl
  | cons h rest ih =>
    cases h <;> simp [XdpIfpAddInterfacesUnwind, ih, List.replicate_succ]

/-- The unwind loop dereferences exactly the created bindings, in order. -/
theorem xdpIfpAddInterfacesUnwind_derefs (IfSet : XDP_INTERFACE_SET)
    (hs : List (Option XDP_INTERFACE)) :
    (XdpIfpAddInterfacesUnwind IfSet hs).2.2 = hs.filterMap id := by
  induction hs generalizing IfSet with
  | nil => rfl
  | cons h rest ih =>
    cases h <;> simp [XdpIfpAddInterfacesUnwind, ih, List.filterMap_cons]

/-- The unwind loop never changes the set's interface index. -/
theorem xdpIfpAddInterfacesUnwind_IfIndex (IfSet : XDP_INTERFACE_SET)
    (hs : List (Option XDP_INTERFACE)) :
    (XdpIfpAddInterfacesUnwind IfSet hs).1.IfIndex = IfSet.IfIndex := by
  induction hs generalizing IfSet with
  | nil => rfl
  | cons h rest ih =>
    cases h <;> simp [XdpIfpAddInterfacesUnwind, ih, setSlot_IfIndex]

/-- After the unwind loop a mode slot is null if some handle cell held a
binding of that mode, and untouched otherwise. -/
theorem xdpIfpAddInterfacesUnwind_slot (IfSet : XDP_INTERFACE_SET)
    (hs : List (Option XDP_INTERFACE)) (m : XDP_INTERFACE_MODE) :
    (XdpIfpAddInterfacesUnwind IfSet hs).1.slot m =
      if handleHasMode m hs then none else IfSet.slot m := by
  induction hs generalizing IfSet with
  | nil => simp [XdpIfpAddInterfacesUnwind, handleHasMode]
  | cons h rest ih =>
    cases h with
    | none =>
      rw [show handleHasMode m (none :: rest) = handleHasMode m rest by
        simp [handleHasMode]]
      simpa [XdpIfpAddInterfacesUnwind] using ih IfSet
    | some Interface =>
      by_cases hm : Interface.Capabilities.Mode = m
      · have h1 : handleHasMode m (some Interface :: rest) = true := by
          simp [handleHasMode, hm]
        rw [h1]
        simp only [XdpIfpAddInterfacesUnwind, ih]
        split_ifs with h2
        · rfl
        · rw [← hm, slot_setSlot_same]
      · have h1 : handleHasMode m (some Interface :: rest) =
            handleHasMode m rest := by
          simp [handleHasMode, hm]
        rw [h1]
        simp only [XdpIfpAddInterfacesUnwind, ih]
        split_ifs with h2
        · rfl
        · rw [slot_setSlot_other _ _ _ _ hm]

/-- The overall status of `XdpIfAddInterfaces` is the forward loop's
status. -/
theorem xdpIfAddInterfaces_status (IfSet : XDP_INTERFACE_SET)
    (ps : List (XDP_ADD_INTERFACE × Option XDP_INTERFACE)) :
    (XdpIfAddInterfaces IfSet ps).1 = (XdpIfpAddInterfacesLoop IfSet ps).1 := by
  simp only [XdpIfAddInterfaces]
  split_ifs <;> rfl

/-- C3: `XdpIfAddInterfaces` is atomic across its batch — whenever
validation, allocation, or work-queue creation fails for some descriptor,
the first error of the batch is returned, every binding created earlier in
the same call is removed from its mode slot and dereferenced, every handle
cell of the batch ends null, and the interface set is exactly as before the
call, so no binding of the batch is visible to subsequent lookups. -/
theorem xdpIfAddInterfaces_atomic (IfSet : XDP_INTERFACE_SET)
    (descs : List XDP_ADD_INTERFACE)
    (hslots : ∀ d ∈ descs, IfSet.slot d.InterfaceCapabilities.Mode = none)
    (hfail : NT_SUCCESS
      (XdpIfAddInterfaces IfSet (descs.map fun d => (d, none))).1 = false) :
    (XdpIfAddInterfaces IfSet (descs.map fun d => (d, none))).2.1 = IfSet ∧
    (XdpIfAddInterfaces IfSet (descs.map fun d => (d, none))).2.2.1 =
      List.replicate descs.length none ∧
    (XdpIfAddInterfaces IfSet (descs.map fun d => (d, none))).1 =
      firstAddError descs ∧
    (XdpIfAddInterfaces IfSet (descs.map fun d => (d, none))).2.2.2 =
      ((XdpIfpAddInterfacesLoop IfSet
        (descs.map fun d => (d, none))).2.2).filterMap id := by
  have hnone : ∀ p ∈ descs.map (fun d => (d, none)),
      p.2 = (none : Option XDP_INTERFACE) := by
    intro p hp
    rw [List.mem_map] at hp
    obtain ⟨d, -, hd⟩ := hp
    rw [← hd]
  have hr : NT_SUCCESS
      (XdpIfpAddInterfacesLoop IfSet (descs.map fun d => (d, none))).1 = false := by
    rw [← xdpIfAddInterfaces_status]
    exact hfail
  have hunf : XdpIfAddInterfaces IfSet (descs.map fun d => (d, none)) =
      ((XdpIfpAddInterfacesLoop IfSet (descs.map fun d => (d, none))).1,
        (XdpIfpAddInterfacesUnwind
          (XdpIfpAddInterfacesLoop IfSet (descs.map fun d => (d, none))).2.1
          (XdpIfpAddInterfacesLoop IfSet (descs.map fun d => (d, none))).2.2).1,
        (XdpIfpAddInterfacesUnwind
          (XdpIfpAddInterfacesLoop IfSet (descs.map fun d => (d, none))).2.1
          (XdpIfpAddInterfacesLoop IfSet (descs.map fun d => (d, none))).2.2).2.1,
        (XdpIfpAddInterfacesUnwind
          (XdpIfpAddInterfacesLoop IfSet (descs.map fun d => (d, none))).2.1
          (XdpIfpAddInterfacesLoop IfSet (descs.map fun d => (d, none))).2.2).2.2) := by
    simp only [XdpIfAddInterfaces, hr, Bool.false_eq_true, if_false]
  refine ⟨?_, ?_, ?_, ?_⟩
  · rw [hunf]
    refine ifSet_ext _ _ ?_ ?_ ?_
    · rw [xdpIfpAddInterfacesUnwind_IfIndex, xdpIfpAddInterfacesLoop_IfIndex]
    all_goals
      rw [xdpIfpAddInterfacesUnwind_slot]
      split_ifs with hm
      · obtain ⟨p, hp, hpm⟩ := xdpIfpAddInterfacesLoop_mode_in_batch IfSet _ _
          hnone hm
        rw [List.mem_map] at hp
        obtain ⟨d, hd, hde⟩ := hp
        rw [← hde] at hpm
        have hdm : IfSet.slot ((d, (none : Option XDP_INTERFACE)).1.InterfaceCapabilities.Mode) =
            none := hslots d hd
        rw [hpm] at hdm
        exact hdm.symm
      · exact xdpIfpAddInterfacesLoop_slot_untouched IfSet _ _ hnone
          (by simpa using hm)
  · rw [hunf]
    rw [xdpIfpAddInterfacesUnwind_handles, xdpIfpAddInterfacesLoop_length,
      List.length_map]
  · rw [hunf]
    rw [xdpIfpAddInterfacesLoop_status]
    have hmm : ∀ l : List XDP_ADD_INTERFACE,
        (l.map fun d => (d, (none : Option XDP_INTERFACE))).map Prod.fst = l := by
      intro l
      induction l with
      | nil => rfl
      | cons a t ih => simp [ih]
    rw [hmm]
  · rw [hunf]
    exact xdpIfpAddInterfacesUnwind_derefs _ _

/-- C3 (witness): a batch of two descriptors on the empty set for interface
7 — the first (generic) fully succeeds, the second (native) fails at
work-queue creation — returns the batch's first error `STATUS_NO_MEMORY`,
leaves the set exactly as before, nulls both handle cells, and dereferences
exactly the one binding created. -/
theorem xdpIfAddInterfaces_atomic_witness :
    (XdpIfAddInterfaces emptyIfSet
      ([goodAddIf, badAddIf].map fun d => (d, none))).2.1 = emptyIfSet ∧
    (XdpIfAddInterfaces emptyIfSet
      ([goodAddIf, badAddIf].map fun d => (d, none))).2.2.1 =
      List.replicate 2 none ∧
    (XdpIfAddInterfaces emptyIfSet
      ([goodAddIf, badAddIf].map fun d => (d, none))).1 =
      firstAddError [goodAddIf, badAddIf] ∧
    (XdpIfAddInterfaces emptyIfSet
      ([goodAddIf, badAddIf].map fun d => (d, none))).2.2.2 =
      ((XdpIfpAddInterfacesLoop emptyIfSet
        ([goodAddIf, badAddIf].map fun d => (d, none))).2.2).filterMap id :=
  xdpIfAddInterfaces_atomic emptyIfSet [goodAddIf, badAddIf]
    (by decide) (by decide)

end XdpBind
